import Mathlib

/-!
Verification of the hangman-pro repository (HANGMAN_Game).

This file shallowly embeds the game-session state machine
(`game_logic.py`), the account lifecycle (`accounts.py`), the relevant
part of the persistence layer (`storage.py`) and the exit path of
`main.py`, and proves or refutes the frozen specification claims about
them.

Conventions of the embedding:
* Python strings that hold a word or a password become `List Char`;
  letter guesses are a single `Char` (the console layer,
  `display.get_letter_guess`, only ever passes a single alphabetic
  character to `make_guess`).
* Python mutation of a session or account dictionary becomes a function
  returning the updated record; functions that in Python both mutate and
  return a value return a pair.
* `random.choice` is modelled by an oracle of natural-number indices
  (reduced modulo the sequence length, so the chosen element is always a
  member of the sequence); `random.shuffle` is modelled by an arbitrary
  function assumed to permute its input.
* Python character-class tests (`str.islower` and friends) are modelled
  over their ASCII meaning, which is the character universe the account
  code works with.
-/

namespace Hangman

/-- The game-session dictionary created by `create_game_session`
(`game_logic.py`): the word, the three guess lists, the life counter and
the two completion flags.  `lives` is an `Int` because Python integers
are unbounded and `make_guess` decrements without a floor. -/
structure GameSession where
  word : List Char
  guessed_letters : List Char
  correct_guesses : List Char
  wrong_guesses : List Char
  lives : Int
  is_complete : Bool
  is_won : Bool
deriving DecidableEq, Repr

/-- `create_game_session` (`game_logic.py` lines 9-27): uppercases the
word and initialises every counter; there is no validation of the word. -/
def create_game_session (word : List Char) : GameSession :=
  { word := word.map Char.toUpper
    guessed_letters := []
    correct_guesses := []
    wrong_guesses := []
    lives := 6
    is_complete := false
    is_won := false }

/-- The win test inlined in `make_guess`:
`all(char in game_session["correct_guesses"] for char in word)`. -/
def word_covered (word correct : List Char) : Bool :=
  word.all fun c => decide (c ∈ correct)

/-- `make_guess` (`game_logic.py` lines 29-68).  Returns the updated
session together with the `bool` the Python function returns: `true` for
a correct new guess, `false` for an already-guessed letter (no state
change) and for a wrong new guess. -/
def make_guess (gs : GameSession) (letter0 : Char) : GameSession × Bool :=
  let letter := letter0.toUpper
  if letter ∈ gs.guessed_letters then
    (gs, false)
  else
    let gs1 : GameSession := { gs with guessed_letters := gs.guessed_letters ++ [letter] }
    if letter ∈ gs1.word then
      let gs2 : GameSession := { gs1 with correct_guesses := gs1.correct_guesses ++ [letter] }
      if word_covered gs2.word gs2.correct_guesses then
        ({ gs2 with is_complete := true, is_won := true }, true)
      else
        (gs2, true)
    else
      let gs2 : GameSession :=
        { gs1 with wrong_guesses := gs1.wrong_guesses ++ [letter], lives := gs1.lives - 1 }
      if gs2.lives ≤ 0 then
        ({ gs2 with is_complete := true, is_won := false }, false)
      else
        (gs2, false)

/-- `is_letter_already_guessed` (`game_logic.py` lines 70-81). -/
def is_letter_already_guessed (gs : GameSession) (letter : Char) : Bool :=
  decide (letter.toUpper ∈ gs.guessed_letters)

/-- Applying a whole sequence of guesses with `make_guess`, left to
right, discarding the returned booleans. -/
def runGuesses (gs : GameSession) (ls : List Char) : GameSession :=
  match ls with
  | [] => gs
  | l :: ls => runGuesses (make_guess gs l).1 ls

/-- The guess sequence respects the game loop of `play_game`: a guess is
only ever made on a session that is not yet complete. -/
def guardedRun (gs : GameSession) (ls : List Char) : Bool :=
  match ls with
  | [] => true
  | l :: ls => !gs.is_complete && guardedRun (make_guess gs l).1 ls

/-- The invariant package of spec section 3 / claim C1. -/
def sessionInv (gs : GameSession) : Prop :=
  gs.lives = 6 - gs.wrong_guesses.length ∧
  (gs.is_complete = true ↔ (gs.lives ≤ 0 ∨ word_covered gs.word gs.correct_guesses = true)) ∧
  (gs.is_won = true ↔ (gs.is_complete = true ∧ 0 < gs.lives)) ∧
  (gs.is_complete = true → 0 ≤ gs.lives)

instance (gs : GameSession) : Decidable (sessionInv gs) := by
  unfold sessionInv; infer_instance

/-! ## Accounts (`accounts.py`) -/

/-- The account dictionary built by `create_account` (`accounts.py`
lines 10-32).  The counters are natural numbers: the source only ever
initialises them to zero and adds non-negative amounts. -/
structure Account where
  name : String
  username : String
  password : String
  wins : Nat
  losses : Nat
  plays : Nat
  session_wins : Nat
  session_losses : Nat
  session_plays : Nat
deriving DecidableEq, Repr

/-- `create_account` (`accounts.py` lines 10-32): all six counters start
at zero. -/
def create_account (name username password : String) : Account :=
  { name := name, username := username, password := password
    wins := 0, losses := 0, plays := 0
    session_wins := 0, session_losses := 0, session_plays := 0 }

/-- `create_guest_account` (`accounts.py` lines 34-44). -/
def create_guest_account (name : String) : Account :=
  create_account name "guest" ""

/-- `add_session_to_totals` (`accounts.py` lines 46-61): folds the
session counters into the lifetime counters.  The reset of the session
counters is commented out in the source, so they are left unchanged. -/
def add_session_to_totals (a : Account) : Account :=
  { a with
    wins := a.wins + a.session_wins
    losses := a.losses + a.session_losses
    plays := a.plays + a.session_plays }

/-- `string.ascii_lowercase`. -/
def ascii_lowercase : List Char := "abcdefghijklmnopqrstuvwxyz".toList

/-- `string.ascii_uppercase`. -/
def ascii_uppercase : List Char := "ABCDEFGHIJKLMNOPQRSTUVWXYZ".toList

/-- `string.digits`. -/
def ascii_digits : List Char := "0123456789".toList

/-- `string.punctuation` (the Python constant, all 32 ASCII punctuation
characters). -/
def punctuation : List Char :=
  "!\"#$%&\x27()*+,-./:;<=>?@[\\]^_\x60\x7b|\x7d~".toList

/-- `str.islower` restricted to the ASCII universe the account code
works with. -/
def pyIslower (c : Char) : Bool := 'a' ≤ c && c ≤ 'z'

/-- `str.isupper` restricted to ASCII. -/
def pyIsupper (c : Char) : Bool := 'A' ≤ c && c ≤ 'Z'

/-- `str.isdigit` restricted to ASCII. -/
def pyIsdigit (c : Char) : Bool := '0' ≤ c && c ≤ '9'

/-- `validate_password` (`accounts.py` lines 63-88): length between 1
and 16 and one character of each of the four classes. -/
def validate_password (password : List Char) : Bool :=
  if password.length > 16 ∨ password.length < 1 then
    false
  else
    password.any pyIslower && password.any pyIsupper &&
    password.any pyIsdigit && (password.any fun c => decide (c ∈ punctuation))

/-- `random.choice(s)` given an oracle index `i`: the element at
`i % s.length`, always a member of a nonempty `s`. -/
def pyChoice (s : List Char) (i : Nat) : Char := s.getD (i % s.length) ' '

/-- The restricted symbol set of `generate_password`
(`"!@#$%^&*"`, `accounts.py` line 100). -/
def gen_symbols : List Char := "!@#$%^&*".toList

/-- The `password` list built by `generate_password` (`accounts.py`
lines 102-113) just before `random.shuffle`: one guaranteed character
of each class, then 8 characters chosen from the union `all_chars`.
`r` is the oracle driving every `random.choice`. -/
def gen_prefill (r : Nat → Nat) : List Char :=
  [pyChoice ascii_lowercase (r 0), pyChoice ascii_uppercase (r 1),
   pyChoice ascii_digits (r 2), pyChoice gen_symbols (r 3)] ++
  ((List.range 8).map fun k =>
    pyChoice (ascii_lowercase ++ ascii_uppercase ++ ascii_digits ++ gen_symbols) (r (4 + k)))

/-- `generate_password` (`accounts.py` lines 90-117).  `shuffle` stands
for `random.shuffle` and is an arbitrary function (the theorems assume
it permutes its input). -/
def generate_password (r : Nat → Nat) (shuffle : List Char → List Char) : List Char :=
  shuffle (gen_prefill r)

/-- The in-memory account store of `load_accounts`/`save_accounts`: a
mapping from username to account record. -/
def AccountStore : Type := String → Option Account

/-- Python dictionary assignment `accounts[username] = record`. -/
def storeInsert (s : AccountStore) (k : String) (v : Account) : AccountStore :=
  fun u => if u = k then some v else s u

/-- The outcome of the success path of `register_user` / `login_user`:
the flag and user returned to `main`, the updated store, and the store
contents handed to `save_accounts` (`none` when nothing was saved). -/
structure AuthOutcome where
  success : Bool
  current_user : Account
  accounts : AccountStore
  saved : Option AccountStore

/-- Steps 3-6 of `register_user` (`accounts.py` lines 254-273), reached
once the interactive loops have produced a valid unique `username` and
a `password`: default the display name, create the record, copy the
guest session counters into it when the acting identity is a guest,
insert it into the store and save the store. -/
def register_success (accounts : AccountStore) (current_user : Account)
    (username password name : String) : AuthOutcome :=
  let name := if name = "" then username else name
  let new_account := create_account name username password
  let new_account :=
    if current_user.username = "guest" then
      { new_account with
        session_wins := current_user.session_wins
        session_losses := current_user.session_losses
        session_plays := current_user.session_plays }
    else new_account
  let accounts := storeInsert accounts username new_account
  { success := true, current_user := new_account
    accounts := accounts, saved := some accounts }

/-- The successful-password branch of `login_user` (`accounts.py` lines
179-190), reached once the interactive loops have found `username` in
the store and matched its password: when the acting identity is a
guest, the guest's session counters are added into the target account's
session counters (an in-place mutation of the store record in the
source); the acting identity then becomes the stored record.  Returns
`none` when `username` is not in the store, which the interactive loop
rules out.  `login_user` never saves the store. -/
def login_success (accounts : AccountStore) (current_user : Account)
    (username : String) : Option AuthOutcome :=
  match accounts username with
  | none => none
  | some target =>
    let target :=
      if current_user.username = "guest" then
        { target with
          session_wins := target.session_wins + current_user.session_wins
          session_losses := target.session_losses + current_user.session_losses
          session_plays := target.session_plays + current_user.session_plays }
      else target
    let accounts := storeInsert accounts username target
    some { success := true, current_user := target
           accounts := accounts, saved := none }

/-- `logout_user` (`accounts.py` lines 275-302).  For a registered
identity the session counters are folded into the lifetime counters and
the store is saved; in the source `current_user` for a registered
identity is the very store record it was logged in as (dictionary
aliasing), so the fold is visible in the store at the user's username,
which the embedding makes explicit with `storeInsert`.  Either way a
fresh guest record (with the newly prompted `guest_name`) becomes the
acting identity. -/
def logout_user (current_user : Account) (accounts : AccountStore)
    (guest_name : String) : AuthOutcome :=
  if current_user.username ≠ "guest" then
    let accounts := storeInsert accounts current_user.username
      (add_session_to_totals current_user)
    { success := true, current_user := create_guest_account guest_name
      accounts := accounts, saved := some accounts }
  else
    { success := true, current_user := create_guest_account guest_name
      accounts := accounts, saved := none }

/-- `exit_game` (`main.py` lines 19-38): same fold-and-save as logout
for a registered identity (with the same store aliasing), nothing for a
guest; no replacement identity is created.  Returns the store and the
contents handed to `save_accounts`, if any. -/
def exit_game (current_user : Account) (accounts : AccountStore) :
    AccountStore × Option AccountStore :=
  if current_user.username ≠ "guest" then
    let accounts := storeInsert accounts current_user.username
      (add_session_to_totals current_user)
    (accounts, some accounts)
  else
    (accounts, none)

/-! ## Storage (`storage.py`) -/

/-- The Python exception classes relevant to `save_accounts`. -/
inductive PyExc
  | ioError
  | jsonDecodeError
  | attributeError
deriving DecidableEq, Repr

/-- The exception-class attributes the Python standard-library `json`
module actually defines: `json.JSONDecodeError` exists; the module has
no `JSONEncodeError` attribute. -/
def jsonModuleAttr : String → Option PyExc
  | "JSONDecodeError" => some PyExc.jsonDecodeError
  | _ => none

/-- The observable outcome of one call to `save_accounts`. -/
inductive SaveResult
  | savedOk
  | handled
  | propagated (e : PyExc)
deriving DecidableEq, Repr

/-- `save_accounts` (`storage.py` lines 55-73) as a function of the
outcome of the file write (`none` = the write succeeded, `some e` = the
`try` body raised `e`).  Python evaluates the handler expression
`(IOError, json.JSONEncodeError)` only when an exception has been
raised in the `try` body; the attribute lookup `json.JSONEncodeError`
is part of that evaluation, and when the attribute does not exist the
lookup itself raises `AttributeError`, which escapes `save_accounts`
instead of the original exception being caught. -/
def save_accounts (write : Option PyExc) : SaveResult :=
  match write with
  | none => SaveResult.savedOk
  | some e =>
    match jsonModuleAttr "JSONEncodeError" with
    | none => SaveResult.propagated PyExc.attributeError
    | some cls =>
      if e = PyExc.ioError ∨ e = cls then SaveResult.handled
      else SaveResult.propagated e

/-! ## Concrete records used by the witness theorems -/

/-- A concrete registered account. -/
def aliceAccount : Account :=
  { name := "Alice", username := "alice", password := "Pw1!"
    wins := 1, losses := 2, plays := 3
    session_wins := 4, session_losses := 1, session_plays := 5 }

/-- A concrete guest identity with accumulated session statistics
(session_wins = 3, as in the spec's registration example;
session_plays = 2, as in its login example). -/
def guestAccount : Account :=
  { name := "G", username := "guest", password := ""
    wins := 0, losses := 0, plays := 0
    session_wins := 3, session_losses := 1, session_plays := 2 }

/-- A store holding exactly the record of `aliceAccount`. -/
def storeAlice : AccountStore := storeInsert (fun _ => none) "alice" aliceAccount

/-- `aliceAccount` after the guest-session merge performed by
`login_success` with `guestAccount` acting. -/
def mergedAlice : Account :=
  { aliceAccount with
    session_wins := aliceAccount.session_wins + guestAccount.session_wins
    session_losses := aliceAccount.session_losses + guestAccount.session_losses
    session_plays := aliceAccount.session_plays + guestAccount.session_plays }

/-- The outcome of `login_success storeAlice guestAccount "alice"`. -/
def loginOutAlice : AuthOutcome :=
  { success := true, current_user := mergedAlice
    accounts := storeInsert storeAlice "alice" mergedAlice, saved := none }

/-- A session that is not complete and satisfies the invariant has a
strictly positive life counter and an uncovered word. -/
theorem not_complete_facts (gs : GameSession) (hinv : sessionInv gs)
    (hnc : gs.is_complete = false) :
    0 < gs.lives ∧ word_covered gs.word gs.correct_guesses = false := by
  obtain ⟨_, h2, _, _⟩ := hinv
  constructor
  · by_contra h
    push_neg at h
    have := h2.mpr (Or.inl h)
    simp [hnc] at this
  · by_contra h
    have hc : word_covered gs.word gs.correct_guesses = true := by
      simpa using h
    have := h2.mpr (Or.inr hc)
    simp [hnc] at this

/-- One step of `make_guess` preserves the session invariant, provided
the session was not yet complete. -/
theorem make_guess_inv (gs : GameSession) (l : Char)
    (hinv : sessionInv gs) (hnc : gs.is_complete = false) :
    sessionInv (make_guess gs l).1 := by
  obtain ⟨hfacts1, hfacts2⟩ := not_complete_facts gs hinv hnc
  obtain ⟨h1, h2, h3, h4⟩ := hinv
  have hwon : gs.is_won = false := by
    cases hw : gs.is_won
    · rfl
    · have := h3.mp hw
      rw [hnc] at this
      exact absurd this.1 (by simp)
  unfold make_guess
  by_cases hg : l.toUpper ∈ gs.guessed_letters
  · simp only [hg, if_true]
    exact ⟨h1, h2, h3, h4⟩
  · simp only [hg, if_false]
    by_cases hw : l.toUpper ∈ gs.word
    · simp only [hw, if_true]
      by_cases hcov : word_covered gs.word (gs.correct_guesses ++ [l.toUpper]) = true
      · simp only [hcov, if_true]
        refine ⟨h1, by simp [hcov], by simp [hfacts1], fun _ => le_of_lt hfacts1⟩
      · rw [if_neg (by simpa using hcov)]
        refine ⟨h1, ?_, ?_, ?_⟩ <;>
          simp [hnc, hwon, hcov, hfacts1, Int.not_le.mpr hfacts1]
    · simp only [hw, if_false]
      by_cases hl : gs.lives - 1 ≤ 0
      · rw [if_pos (by simpa using hl)]
        refine ⟨by simp [h1]; omega, ?_, ?_, ?_⟩ <;> simp [hl] <;> omega
      · rw [if_neg (by simpa using hl)]
        refine ⟨by simp [h1]; omega, ?_, ?_, ?_⟩ <;>
          simp [hnc, hwon, hfacts2, hl]

/-- The invariant holds of a freshly created session for a nonempty
word. -/
theorem create_inv (w : List Char) (hw : w ≠ []) :
    sessionInv (create_game_session w) := by
  obtain ⟨a, as, rfl⟩ := List.exists_cons_of_ne_nil hw
  unfold sessionInv create_game_session word_covered
  refine ⟨by simp, by simp, by simp, by simp⟩

/-- Running a guarded guess sequence preserves the invariant. -/
theorem runGuesses_inv (ls : List Char) (gs : GameSession)
    (hinv : sessionInv gs) (hg : guardedRun gs ls = true) :
    sessionInv (runGuesses gs ls) := by
  induction ls generalizing gs with
  | nil => simpa [runGuesses] using hinv
  | cons l ls ih =>
    rw [guardedRun, Bool.and_eq_true, Bool.not_eq_true'] at hg
    exact ih _ (make_guess_inv gs l hinv hg.1) hg.2

/-- C1 counterexample.  The claim quantifies over ALL words and ALL
guess sequences, but it fails (a) once guesses continue past completion:
with word "A" and guesses A,B,C,D,E,F,G,H the session ends complete with
lives = -1 < 0, contradicting "is_complete implies lives ≥ 0"; and
(b) for the empty word: after the single guess A the session is not
complete although every distinct character of the word (vacuously) lies
in correct_guesses, contradicting the stated biconditional. -/
theorem C1_counterexample :
    ((runGuesses (create_game_session ['A'])
        ['A', 'B', 'C', 'D', 'E', 'F', 'G', 'H']).is_complete = true ∧
     (runGuesses (create_game_session ['A'])
        ['A', 'B', 'C', 'D', 'E', 'F', 'G', 'H']).lives < 0) ∧
    ((runGuesses (create_game_session []) ['A']).is_complete = false ∧
     word_covered (runGuesses (create_game_session []) ['A']).word
       (runGuesses (create_game_session []) ['A']).correct_guesses = true) := by
  decide

/-- C1 (amended).  For every NONEMPTY word and every guess sequence in
which no guess is applied to an already-complete session (which is how
the `play_game` loop drives `make_guess`), after each guess the session
satisfies: lives = 6 - |wrong_guesses|; is_complete iff lives ≤ 0 or
every distinct character of the word is in correct_guesses; is_won iff
is_complete and lives > 0; and is_complete implies lives ≥ 0.  ("After
each guess" is captured because the statement quantifies over every
guarded sequence, hence over every prefix of one.) -/
theorem C1_amended_session_invariants (w ls : List Char) (hw : w ≠ [])
    (hg : guardedRun (create_game_session w) ls = true) :
    sessionInv (runGuesses (create_game_session w) ls) :=
  runGuesses_inv ls _ (create_inv w hw) hg

/-- Witness for C1 (amended) at word "CAT" with guesses C,A,T. -/
theorem C1_amended_witness :
    (['C', 'A', 'T'] : List Char) ≠ [] ∧
    guardedRun (create_game_session ['C', 'A', 'T']) ['C', 'A', 'T'] = true ∧
    sessionInv (runGuesses (create_game_session ['C', 'A', 'T']) ['C', 'A', 'T']) :=
  ⟨by decide, by decide,
    C1_amended_session_invariants ['C', 'A', 'T'] ['C', 'A', 'T'] (by decide) (by decide)⟩

/-- C2 counterexample.  `make_guess` returns only a boolean, and that
boolean is `false` both for a letter that was already guessed and for a
fresh incorrect letter: with word "CAT" after the wrong guess X, the
already-guessed re-guess of X and the fresh incorrect guess of Y return
the identical value, so AlreadyGuessed is NOT distinguishable from
Incorrect in the returned value. -/
theorem C2_counterexample :
    (make_guess (runGuesses (create_game_session ['C', 'A', 'T']) ['X']) 'X').2 =
      (make_guess (runGuesses (create_game_session ['C', 'A', 'T']) ['X']) 'Y').2 ∧
    'X' ∈ (runGuesses (create_game_session ['C', 'A', 'T']) ['X']).guessed_letters ∧
    'Y' ∉ (runGuesses (create_game_session ['C', 'A', 'T']) ['X']).guessed_letters ∧
    'Y' ∉ (runGuesses (create_game_session ['C', 'A', 'T']) ['X']).word := by
  decide

/-- C2 (amended).  `make_guess` returns a single boolean, not a
three-valued outcome: if the uppercased letter is already in
guessed_letters it returns `false` and changes no field of the session;
if the letter is new and occurs in the word it returns `true`; if the
letter is new and does not occur in the word it returns `false`,
appends it to wrong_guesses and decrements lives.  The already-guessed
case is thus distinguished from the incorrect case only by the absence
of a state change (or by `is_letter_already_guessed`), not by the
returned value. -/
theorem C2_amended_make_guess_outcomes (gs : GameSession) (l : Char) :
    (l.toUpper ∈ gs.guessed_letters → make_guess gs l = (gs, false)) ∧
    (l.toUpper ∉ gs.guessed_letters → l.toUpper ∈ gs.word →
      (make_guess gs l).2 = true) ∧
    (l.toUpper ∉ gs.guessed_letters → l.toUpper ∉ gs.word →
      (make_guess gs l).2 = false ∧
      (make_guess gs l).1.wrong_guesses = gs.wrong_guesses ++ [l.toUpper] ∧
      (make_guess gs l).1.lives = gs.lives - 1) := by
  refine ⟨fun hg => ?_, fun hg hw => ?_, fun hg hw => ?_⟩
  · simp [make_guess, hg]
  · by_cases hcov : word_covered gs.word (gs.correct_guesses ++ [l.toUpper]) = true <;>
      simp [make_guess, hg, hw, hcov]
  · by_cases hl : gs.lives - 1 ≤ 0 <;>
      simp [make_guess, hg, hw, hl]

/-- Witness for C2 (amended): a correct fresh guess on a new session
for "CAT" returns true. -/
theorem C2_amended_witness :
    (make_guess (create_game_session ['C', 'A', 'T']) 'C').2 = true :=
  (C2_amended_make_guess_outcomes (create_game_session ['C', 'A', 'T']) 'C').2.1
    (by decide) (by decide)

/-- C9 counterexample.  `create_game_session` performs no emptiness
check: applied to the empty word it returns an ordinary initial session
(word "", 6 lives, all lists empty) instead of signalling a
configuration error. -/
theorem C9_counterexample :
    create_game_session [] =
      { word := [], guessed_letters := [], correct_guesses := [],
        wrong_guesses := [], lives := 6, is_complete := false, is_won := false } := by
  decide

/-- C9 (amended).  `create_game_session` normalizes the word to
uppercase and unconditionally constructs the initial session — for
every word, the empty string included, it returns the uppercased word
with empty guess lists, 6 lives and both flags false; it rejects
nothing. -/
theorem C9_amended_create_session (w : List Char) :
    create_game_session w =
      { word := w.map Char.toUpper, guessed_letters := [], correct_guesses := [],
        wrong_guesses := [], lives := 6, is_complete := false, is_won := false } :=
  rfl

/-- `random.choice` always returns a member of a nonempty sequence. -/
theorem pyChoice_mem (s : List Char) (i : Nat) (hs : s ≠ []) : pyChoice s i ∈ s := by
  have hlen : 0 < s.length := List.length_pos.mpr hs
  rw [pyChoice, List.getD_eq_getElem s ' ' (Nat.mod_lt i hlen)]
  exact List.getElem_mem _

/-- Every character of `string.ascii_lowercase` passes `pyIslower`. -/
theorem lower_class : ∀ c ∈ ascii_lowercase, pyIslower c = true := by decide

/-- Every character of `string.ascii_uppercase` passes `pyIsupper`. -/
theorem upper_class : ∀ c ∈ ascii_uppercase, pyIsupper c = true := by decide

/-- Every character of `string.digits` passes `pyIsdigit`. -/
theorem digit_class : ∀ c ∈ ascii_digits, pyIsdigit c = true := by decide

/-- The restricted generator symbol set is contained in
`string.punctuation`. -/
theorem gen_symbols_punct : ∀ c ∈ gen_symbols, c ∈ punctuation := by decide

/-- C3.  For every sequence of random choices and every shuffle that
permutes its input, `generate_password` returns exactly 12 characters
with at least one lowercase letter, one uppercase letter, one digit and
one punctuation symbol, and the result is accepted by
`validate_password` — the generator's output always lies in the
policy-accepted set. -/
theorem C3_generate_password_always_valid (r : Nat → Nat)
    (shuffle : List Char → List Char) (hsh : ∀ l, (shuffle l).Perm l) :
    (generate_password r shuffle).length = 12 ∧
    (generate_password r shuffle).any pyIslower = true ∧
    (generate_password r shuffle).any pyIsupper = true ∧
    (generate_password r shuffle).any pyIsdigit = true ∧
    ((generate_password r shuffle).any fun c => decide (c ∈ punctuation)) = true ∧
    validate_password (generate_password r shuffle) = true := by
  have hperm : (generate_password r shuffle).Perm (gen_prefill r) := hsh (gen_prefill r)
  have hlen : (generate_password r shuffle).length = 12 := by
    rw [hperm.length_eq]
    simp [gen_prefill]
  have hmem : ∀ c ∈ gen_prefill r, c ∈ generate_password r shuffle := fun c hc =>
    hperm.mem_iff.mpr hc
  have h1 : (generate_password r shuffle).any pyIslower = true :=
    List.any_eq_true.mpr
      ⟨pyChoice ascii_lowercase (r 0), hmem _ (by simp [gen_prefill]),
       lower_class _ (pyChoice_mem _ _ (by decide))⟩
  have h2 : (generate_password r shuffle).any pyIsupper = true :=
    List.any_eq_true.mpr
      ⟨pyChoice ascii_uppercase (r 1), hmem _ (by simp [gen_prefill]),
       upper_class _ (pyChoice_mem _ _ (by decide))⟩
  have h3 : (generate_password r shuffle).any pyIsdigit = true :=
    List.any_eq_true.mpr
      ⟨pyChoice ascii_digits (r 2), hmem _ (by simp [gen_prefill]),
       digit_class _ (pyChoice_mem _ _ (by decide))⟩
  have h4 : ((generate_password r shuffle).any fun c => decide (c ∈ punctuation)) = true :=
    List.any_eq_true.mpr
      ⟨pyChoice gen_symbols (r 3), hmem _ (by simp [gen_prefill]),
       by simpa using gen_symbols_punct _ (pyChoice_mem _ _ (by decide))⟩
  refine ⟨hlen, h1, h2, h3, h4, ?_⟩
  rw [validate_password, if_neg (by omega)]
  simp [h1, h2, h3, h4]

/-- Witness for C3 at the constant-zero choice oracle and the identity
shuffle. -/
theorem C3_witness :
    (generate_password (fun _ => 0) id).length = 12 ∧
    (generate_password (fun _ => 0) id).any pyIslower = true ∧
    (generate_password (fun _ => 0) id).any pyIsupper = true ∧
    (generate_password (fun _ => 0) id).any pyIsdigit = true ∧
    ((generate_password (fun _ => 0) id).any fun c => decide (c ∈ punctuation)) = true ∧
    validate_password (generate_password (fun _ => 0) id) = true :=
  C3_generate_password_always_valid (fun _ => 0) id fun l => List.Perm.refl l

/-- C4.  `validate_password` accepts exactly the strings of length 1-16
holding at least one ASCII lowercase letter, one uppercase letter, one
digit and one character of `string.punctuation`; in particular "abc" is
rejected, "Abcdef1!" is accepted, and every string of 17 or more
characters is rejected regardless of content. -/
theorem C4_validate_password_policy :
    (∀ p : List Char, validate_password p = true ↔
      (1 ≤ p.length ∧ p.length ≤ 16 ∧
       p.any pyIslower = true ∧ p.any pyIsupper = true ∧
       p.any pyIsdigit = true ∧ (p.any fun c => decide (c ∈ punctuation)) = true)) ∧
    validate_password "abc".toList = false ∧
    validate_password "Abcdef1!".toList = true ∧
    (∀ p : List Char, 17 ≤ p.length → validate_password p = false) := by
  refine ⟨fun p => ?_, by decide, by decide, fun p hp => ?_⟩
  · rw [validate_password]
    by_cases h : p.length > 16 ∨ p.length < 1
    · rw [if_pos h]
      constructor
      · intro hfalse
        exact absurd hfalse (by simp)
      · intro hright
        omega
    · rw [if_neg h]
      push_neg at h
      simp only [Bool.and_eq_true]
      constructor
      · rintro ⟨⟨⟨a, b⟩, c⟩, d⟩
        exact ⟨by omega, by omega, a, b, c, d⟩
      · rintro ⟨_, _, a, b, c, d⟩
        exact ⟨⟨⟨a, b⟩, c⟩, d⟩
  · rw [validate_password, if_pos (Or.inl (by omega))]

/-- Witness for C4: a 17-character string is rejected. -/
theorem C4_witness : validate_password (List.replicate 17 'a') = false :=
  C4_validate_password_policy.2.2.2 (List.replicate 17 'a') (by simp)

/-- C5.  A successful registration while the acting identity is a
guest creates a record with lifetime counters wins = losses = plays =
0 whose session counters equal the guest's session counters (copied,
not added to lifetime counters), inserts it into the store under the
chosen username, and persists the store. -/
theorem C5_register_guest_copies_session (accounts : AccountStore)
    (current_user : Account) (username password name : String)
    (hguest : current_user.username = "guest") :
    (register_success accounts current_user username password name).current_user.wins = 0 ∧
    (register_success accounts current_user username password name).current_user.losses = 0 ∧
    (register_success accounts current_user username password name).current_user.plays = 0 ∧
    (register_success accounts current_user username password name).current_user.session_wins =
      current_user.session_wins ∧
    (register_success accounts current_user username password name).current_user.session_losses =
      current_user.session_losses ∧
    (register_success accounts current_user username password name).current_user.session_plays =
      current_user.session_plays ∧
    (register_success accounts current_user username password name).current_user.username =
      username ∧
    (register_success accounts current_user username password name).accounts username =
      some (register_success accounts current_user username password name).current_user ∧
    (register_success accounts current_user username password name).saved =
      some (register_success accounts current_user username password name).accounts := by
  simp [register_success, hguest, create_account, storeInsert]

/-- Witness for C5: registering "bob" while guest with session_wins =
3 copies 3 into the new record's session_wins and leaves lifetime wins
at 0. -/
theorem C5_witness :
    (register_success (fun _ => none) guestAccount "bob" "Pw1!" "Bob").current_user.wins = 0 ∧
    (register_success (fun _ => none) guestAccount "bob" "Pw1!" "Bob").current_user.losses = 0 ∧
    (register_success (fun _ => none) guestAccount "bob" "Pw1!" "Bob").current_user.plays = 0 ∧
    (register_success (fun _ => none) guestAccount "bob" "Pw1!" "Bob").current_user.session_wins =
      guestAccount.session_wins ∧
    (register_success (fun _ => none) guestAccount "bob" "Pw1!" "Bob").current_user.session_losses =
      guestAccount.session_losses ∧
    (register_success (fun _ => none) guestAccount "bob" "Pw1!" "Bob").current_user.session_plays =
      guestAccount.session_plays ∧
    (register_success (fun _ => none) guestAccount "bob" "Pw1!" "Bob").current_user.username =
      "bob" ∧
    (register_success (fun _ => none) guestAccount "bob" "Pw1!" "Bob").accounts "bob" =
      some (register_success (fun _ => none) guestAccount "bob" "Pw1!" "Bob").current_user ∧
    (register_success (fun _ => none) guestAccount "bob" "Pw1!" "Bob").saved =
      some (register_success (fun _ => none) guestAccount "bob" "Pw1!" "Bob").accounts :=
  C5_register_guest_copies_session (fun _ => none) guestAccount "bob" "Pw1!" "Bob" rfl

/-- C6.  A successful login while the acting identity is a guest adds
the guest's session counters into the target account's existing session
counters (additive merge, not overwrite), leaves the lifetime counters
alone, makes the merged stored record the acting identity, and saves
nothing. -/
theorem C6_login_guest_merges_session (accounts : AccountStore)
    (current_user target : Account) (username : String) (out : AuthOutcome)
    (hguest : current_user.username = "guest")
    (hmem : accounts username = some target)
    (hout : login_success accounts current_user username = some out) :
    out.current_user.session_wins = target.session_wins + current_user.session_wins ∧
    out.current_user.session_losses = target.session_losses + current_user.session_losses ∧
    out.current_user.session_plays = target.session_plays + current_user.session_plays ∧
    out.current_user.wins = target.wins ∧
    out.current_user.losses = target.losses ∧
    out.current_user.plays = target.plays ∧
    out.accounts username = some out.current_user ∧
    out.saved = none := by
  rw [login_success, hmem] at hout
  simp only [hguest, if_pos] at hout
  cases hout
  simp [storeInsert]

/-- Witness for C6: logging in as "alice" (stored session_plays = 5)
while guest with session_plays = 2 yields session_plays = 5 + 2. -/
theorem C6_witness :
    loginOutAlice.current_user.session_wins =
      aliceAccount.session_wins + guestAccount.session_wins ∧
    loginOutAlice.current_user.session_losses =
      aliceAccount.session_losses + guestAccount.session_losses ∧
    loginOutAlice.current_user.session_plays =
      aliceAccount.session_plays + guestAccount.session_plays ∧
    loginOutAlice.current_user.wins = aliceAccount.wins ∧
    loginOutAlice.current_user.losses = aliceAccount.losses ∧
    loginOutAlice.current_user.plays = aliceAccount.plays ∧
    loginOutAlice.accounts "alice" = some loginOutAlice.current_user ∧
    loginOutAlice.saved = none :=
  C6_login_guest_merges_session storeAlice guestAccount aliceAccount "alice"
    loginOutAlice rfl (by simp [storeAlice, storeInsert]) (by rfl)

/-- C7.  Logging out a registered identity folds the session counters
into the lifetime counters (wins += session_wins and so on), leaves the
session counters themselves unchanged, stores the folded record, saves
the store, and replaces the acting identity with a freshly created
guest record; logging out a guest changes no account data and saves
nothing. -/
theorem C7_logout_folds_and_saves (current_user : Account)
    (accounts : AccountStore) (guest_name : String) :
    (current_user.username ≠ "guest" →
      (logout_user current_user accounts guest_name).accounts current_user.username =
        some (add_session_to_totals current_user) ∧
      (add_session_to_totals current_user).wins =
        current_user.wins + current_user.session_wins ∧
      (add_session_to_totals current_user).losses =
        current_user.losses + current_user.session_losses ∧
      (add_session_to_totals current_user).plays =
        current_user.plays + current_user.session_plays ∧
      (add_session_to_totals current_user).session_wins = current_user.session_wins ∧
      (add_session_to_totals current_user).session_losses = current_user.session_losses ∧
      (add_session_to_totals current_user).session_plays = current_user.session_plays ∧
      (logout_user current_user accounts guest_name).saved =
        some (logout_user current_user accounts guest_name).accounts ∧
      (logout_user current_user accounts guest_name).current_user =
        create_guest_account guest_name) ∧
    (current_user.username = "guest" →
      (logout_user current_user accounts guest_name).accounts = accounts ∧
      (logout_user current_user accounts guest_name).saved = none ∧
      (logout_user current_user accounts guest_name).current_user =
        create_guest_account guest_name) := by
  constructor
  · intro hne
    simp [logout_user, hne, add_session_to_totals, storeInsert]
  · intro heq
    simp [logout_user, heq]

/-- Witness for C7 at the registered account `aliceAccount`. -/
theorem C7_witness :
    (logout_user aliceAccount (fun _ => none) "g").accounts aliceAccount.username =
      some (add_session_to_totals aliceAccount) ∧
    (add_session_to_totals aliceAccount).wins =
      aliceAccount.wins + aliceAccount.session_wins ∧
    (add_session_to_totals aliceAccount).losses =
      aliceAccount.losses + aliceAccount.session_losses ∧
    (add_session_to_totals aliceAccount).plays =
      aliceAccount.plays + aliceAccount.session_plays ∧
    (add_session_to_totals aliceAccount).session_wins = aliceAccount.session_wins ∧
    (add_session_to_totals aliceAccount).session_losses = aliceAccount.session_losses ∧
    (add_session_to_totals aliceAccount).session_plays = aliceAccount.session_plays ∧
    (logout_user aliceAccount (fun _ => none) "g").saved =
      some (logout_user aliceAccount (fun _ => none) "g").accounts ∧
    (logout_user aliceAccount (fun _ => none) "g").current_user =
      create_guest_account "g" :=
  (C7_logout_folds_and_saves aliceAccount (fun _ => none) "g").1 (by decide)

/-- C8 (evaluating the code at the failing input).  When the file write
inside `save_accounts` raises, no exception is ever handled by its
except block: the handler expression names the nonexistent attribute
`json.JSONEncodeError`, so evaluating it raises `AttributeError`, which
propagates to the caller — contradicting the claim that store-write
failures are caught and reported inside `save_accounts`. -/
theorem C8_save_write_error_propagates :
    save_accounts none = SaveResult.savedOk ∧
    save_accounts (some PyExc.ioError) = SaveResult.propagated PyExc.attributeError ∧
    (∀ e, decide (save_accounts (some e) = SaveResult.handled) = false) := by
  refine ⟨rfl, rfl, fun e => ?_⟩
  cases e <;> rfl

/-- C10 counterexample.  Nothing stops the literal username "guest"
from being chosen at registration: registering it succeeds, inserts a
record whose username is "guest" into the store, and persists that
store — so a record with username "guest" CAN be inserted and written. -/
theorem C10_counterexample :
    (register_success (fun _ => none) (create_guest_account "g") "guest" "Pw1!" "G").current_user.username
      = "guest" ∧
    ((register_success (fun _ => none) (create_guest_account "g") "guest" "Pw1!" "G").accounts
      "guest").isSome = true ∧
    (register_success (fun _ => none) (create_guest_account "g") "guest" "Pw1!" "G").saved =
      some (register_success (fun _ => none) (create_guest_account "g") "guest" "Pw1!" "G").accounts := by
  refine ⟨rfl, ?_, rfl⟩
  simp [register_success, storeInsert]

/-- C10 (amended).  The EPHEMERAL guest record itself is never
persisted: logout and exit under a guest identity change no account
data and save nothing, and a successful login never adds a "guest" key
to a store that lacks one (and saves nothing).  Only registration can
put a record under the key "guest" into the store, and only when the
user explicitly chooses that literal username. -/
theorem C10_amended_guest_never_persisted :
    (∀ (cu : Account) (accounts : AccountStore) (gname : String),
      cu.username = "guest" →
        (logout_user cu accounts gname).saved = none ∧
        (logout_user cu accounts gname).accounts = accounts) ∧
    (∀ (cu : Account) (accounts : AccountStore),
      cu.username = "guest" →
        (exit_game cu accounts).2 = none ∧ (exit_game cu accounts).1 = accounts) ∧
    (∀ (accounts : AccountStore) (cu : Account) (username : String) (out : AuthOutcome),
      login_success accounts cu username = some out →
      accounts "guest" = none →
        out.accounts "guest" = none ∧ out.saved = none) := by
  refine ⟨fun cu accounts gname hg => ?_, fun cu accounts hg => ?_,
    fun accounts cu username out hout hno => ?_⟩
  · simp [logout_user, hg]
  · simp [exit_game, hg]
  · rw [login_success] at hout
    cases hmem : accounts username with
    | none => rw [hmem] at hout; cases hout
    | some target =>
      rw [hmem] at hout
      simp only at hout
      cases hout
      have hne : "guest" ≠ username := fun h => by
        rw [← h, hno] at hmem
        cases hmem
      constructor
      · simpa [storeInsert, hne] using hno
      · rfl

/-- Witness for C10 (amended): a guest logout leaves the store
untouched and saves nothing. -/
theorem C10_amended_witness :
    (logout_user guestAccount (fun _ => none) "g2").saved = none ∧
    (logout_user guestAccount (fun _ => none) "g2").accounts = (fun _ => none) :=
  C10_amended_guest_never_persisted.1 guestAccount (fun _ => none) "g2" rfl

end Hangman
